import Mathlib

/-!
Verification of the single-file dashboard `aaa.py`: a CSV upload/analysis
tab plus a Gemini chat tab.  The definitions below are a shallow embedding
of the script's behaviour: the translation lookup, the CSV loading and
summary code of the upload tab, the model/credential initialization, and
the per-rerun chat-session state machine of the chat tab.
-/

namespace Aaa

/- ===== Translation lookup (aaa.py lines 66-68) ===== -/

/-- Embedding of the translation function at aaa.py lines 66-68:
`translations.get(key, f"MISSING_KEY: \x7bkey\x7d")`, where `translations`
is the loaded key/value mapping (modelled as an association list). -/
def lookupTranslation (translations : List (String × String)) (key : String) : String :=
  match translations.lookup key with
  | some v => v
  | none => "MISSING_KEY: " ++ key

/- ===== CSV loading (aaa.py lines 129-141) ===== -/

/-- Splitting a character list on a separator character, keeping empty
pieces, as Python string splitting does. -/
def splitOnCharAux (sep : Char) : List Char → List Char → List (List Char)
  | [], acc => [acc.reverse]
  | c :: cs, acc =>
    if c = sep then acc.reverse :: splitOnCharAux sep cs []
    else splitOnCharAux sep cs (c :: acc)

def splitOnChar (sep : Char) (cs : List Char) : List (List Char) :=
  splitOnCharAux sep cs []

def strSplit (sep : Char) (s : String) : List String :=
  (splitOnChar sep s.data).map String.mk

/-- The lines pd.read_csv reads from the decoded text: split on newline;
its default skip_blank_lines=True drops blank lines (in particular the
empty piece a trailing newline leaves behind). -/
def csvLines (s : String) : List String :=
  (strSplit '\n' s).filter (fun l => l ≠ "")

/-- The comma-separated fields of one CSV line. -/
def splitFields (line : String) : List String :=
  strSplit ',' line

/-- The failure cases of the upload handler at aaa.py lines 205-209:
an empty file (pd.errors.EmptyDataError), undecodable bytes, and a data
row with inconsistent extra fields (tokenizing ParserError). -/
inductive ParseError
  | emptyContent
  | decodingFailure
  | malformedRows
  deriving DecidableEq

/-- The loaded DataFrame: the header line's fields and the data rows,
each cell kept as its raw field text (an empty field is a NaN cell). -/
structure Table where
  header : List String
  rows : List (List String)
  deriving DecidableEq

/-- Embedding of `pd.read_csv(BytesIO(uploaded_file.getvalue()), encoding='utf-8')`
(aaa.py line 132) on the decoded text: the first non-blank line is the
header, every further non-blank line is a data row.  An input with no
lines raises EmptyDataError.  When every data row has exactly one more
field than the header, pandas infers the first field of each row to be
the index, so the table's rows are the field tails.  Otherwise rows with
more fields than the header raise the tokenizing ParserError, and rows
with fewer fields are kept and NaN-padded on the right (a missing
trailing field reads as a null cell, which `columnCells` realizes with
its default). -/
def read_csv (s : String) : Except ParseError Table :=
  match csvLines s with
  | [] => .error .emptyContent
  | h :: rest =>
    if (rest.map splitFields).all
        (fun r => r.length = (splitFields h).length + 1) then
      .ok ⟨splitFields h, (rest.map splitFields).map List.tail⟩
    else if (rest.map splitFields).all
        (fun r => r.length ≤ (splitFields h).length) then
      .ok ⟨splitFields h, rest.map splitFields⟩
    else .error .malformedRows

/-- The uploaded byte content as the loader sees it: either bytes that
fail UTF-8 decoding, or the decoded text. -/
inductive Upload
  | undecodable
  | text (s : String)

/-- The whole upload handler's parse step (aaa.py lines 129-132 with the
error handlers at 205-209): decode, then read_csv. -/
def loadUpload : Upload → Except ParseError Table
  | .undecodable => .error .decodingFailure
  | .text s => read_csv s

/-- df.shape[0] (aaa.py line 138). -/
def rowCount (t : Table) : Nat := t.rows.length

/-- df.shape[1] (aaa.py line 139). -/
def colCount (t : Table) : Nat := t.header.length

/-- A cell parsed from an empty CSV field is NaN, i.e. null. -/
def isNullCell (c : String) : Bool := c = ""

/-- The cells of column `j`, top to bottom. -/
def columnCells (t : Table) (j : Nat) : List String :=
  t.rows.map (fun r => r.getD j "")

/-- df.isnull().sum().sum() (aaa.py line 141): per-column null-cell
counts, summed over the columns. -/
def missing_count (t : Table) : Nat :=
  ((List.range (colCount t)).map
    (fun j => ((columnCells t j).filter isNullCell).length)).sum

/-- The data lines of the CSV text (all non-blank lines after the header),
used to count rows independently of the loader. -/
def dataLines (s : String) : List String := (csvLines s).tail

/-- The header fields of the CSV text, read independently of the loader. -/
def headerFields (s : String) : List String :=
  splitFields ((csvLines s).headD "")

/-- An independent count of the empty/null cells of the CSV text: walk
the data lines and count their empty fields directly. -/
def independentMissingCount (s : String) : Nat :=
  ((dataLines s).map
    (fun l => ((splitFields l).filter isNullCell).length)).sum

/- ===== Column dtypes and summaries (aaa.py lines 148, 187, 196) ===== -/

def digitsOnly (cs : List Char) : Bool :=
  !cs.isEmpty && cs.all Char.isDigit

/-- A field text that pandas type inference reads as a number: an
optionally negated integer or decimal literal (the numeric shapes that
occur in the data this script handles). -/
def isNumericStr (s : String) : Bool :=
  match s.data with
  | [] => false
  | cs =>
    let body := if cs.headD ' ' = '-' then cs.tail else cs
    match splitOnChar '.' body with
    | [w] => digitsOnly w
    | [w, f] => digitsOnly w && digitsOnly f
    | _ => false

/-- Column `j` lands in df.select_dtypes(include=[number]) (aaa.py line
148) when every cell is null (NaN) or a numeric literal, so pandas gives
the column a numeric dtype. -/
def isNumericColumn (t : Table) (j : Nat) : Bool :=
  (columnCells t j).all (fun c => isNullCell c || isNumericStr c)

/-- Column `j` lands in df.select_dtypes(include=[object, category, bool])
(aaa.py line 187): the columns pandas does not give a numeric dtype. -/
def isCategoricalColumn (t : Table) (j : Nat) : Bool :=
  !(isNumericColumn t j)

/-- df[col].dropna() (aaa.py lines 164, 175, 196): the non-null cells. -/
def dropna (cells : List String) : List String :=
  cells.filter (fun c => !isNullCell c)

/-- Stable insertion keeping counts in descending order: the inserted
element goes before later elements of equal count. -/
def insertDescending (x : String × Nat) : List (String × Nat) → List (String × Nat)
  | [] => [x]
  | y :: ys => if y.2 ≤ x.2 then x :: y :: ys else y :: insertDescending x ys

def sortByCountDesc : List (String × Nat) → List (String × Nat)
  | [] => []
  | x :: xs => insertDescending x (sortByCountDesc xs)

/-- df[col].value_counts() (aaa.py line 196): each distinct non-null
value with its number of occurrences, in descending count order. -/
def value_counts (cells : List String) : List (String × Nat) :=
  let vals := dropna cells
  sortByCountDesc (vals.eraseDups.map (fun v => (v, vals.count v)))

/- ===== The histogram call (aaa.py lines 163-167) ===== -/

/-- The argument record of one seaborn histplot invocation: the data
series, the bin specification (`none` means no bins argument was passed,
so seaborn falls back to its automatic bin estimation), and the kde
flag. -/
structure HistplotCall where
  data : List String
  bins : Option Nat
  kde : Bool
  deriving DecidableEq

/-- Embedding of `sns.histplot(df[selected_numeric_col].dropna(), kde=True)`
(aaa.py line 164): the column with nulls dropped, kde on, and no bins
argument. -/
def histplotCall (t : Table) (j : Nat) : HistplotCall :=
  { data := dropna (columnCells t j), bins := none, kde := true }

/-- Modelled from the spec: the bin specification the spec prescribes for
numeric-column histograms, a fixed bin count of 20. -/
def specHistplotBins : Option Nat := some 20

/- ===== Prompt composition ===== -/

/-- Decimal rendering of a natural number, structurally recursive on a
fuel argument so the kernel can evaluate it. -/
def natToStrAux : Nat → Nat → List Char
  | 0, _ => []
  | fuel + 1, n =>
    if n < 10 then [Char.ofNat (48 + n)]
    else natToStrAux fuel (n / 10) ++ [Char.ofNat (48 + n % 10)]

def natToStr (n : Nat) : String := String.mk (natToStrAux (n + 1) n)

def intToStr : Int → String
  | .ofNat n => natToStr n
  | .negSucc n => "-" ++ natToStr (n + 1)

def digitsVal (cs : List Char) : Nat :=
  cs.foldl (fun n c => 10 * n + (c.toNat - 48)) 0

/-- An integer-valued cell, parsed. -/
def parseIntCell (s : String) : Option Int :=
  match s.data with
  | '-' :: cs => if digitsOnly cs then some (-(Int.ofNat (digitsVal cs))) else none
  | cs => if digitsOnly cs then some (Int.ofNat (digitsVal cs)) else none

def joinWith (sep : String) : List String → String
  | [] => ""
  | [x] => x
  | x :: y :: xs => x ++ sep ++ joinWith sep (y :: xs)

/-- Modelled from the spec: the role-instruction preamble of the Prompt
Composer (no prompt-composition code exists in aaa.py). -/
def rolePreamble : String :=
  "You are a data analysis assistant. Use the table context below.\n"

/-- Modelled from the spec: serialized schema, one `name: dtype` line per
column. -/
def serializeSchema (t : Table) : String :=
  String.join ((List.range (colCount t)).map (fun j =>
    t.header.getD j "" ++ ": " ++
      (if isNumericColumn t j then "numeric" else "object") ++ "\n"))

def intMin (a b : Int) : Int := if a ≤ b then a else b

def intMax (a b : Int) : Int := if a ≤ b then b else a

/-- Modelled from the spec: serialized descriptive statistics of one
numeric column (count and, over its integer-valued cells, min and max). -/
def statsForColumn (t : Table) (j : Nat) : String :=
  let vals := (dropna (columnCells t j)).filterMap parseIntCell
  t.header.getD j "" ++ ": count=" ++ natToStr vals.length ++
    (match vals with
     | [] => ""
     | v :: vs =>
       " min=" ++ intToStr (vs.foldl intMin v) ++
         " max=" ++ intToStr (vs.foldl intMax v)) ++
    "\n"

/-- Modelled from the spec: serialized numeric descriptive statistics,
one line per numeric column. -/
def serializeNumericStats (t : Table) : String :=
  String.join
    (((List.range (colCount t)).filter (fun j => isNumericColumn t j)).map
      (statsForColumn t))

/-- Modelled from the spec: the first 5 rows rendered as a table. -/
def serializeHead (t : Table) : String :=
  joinWith "\n" (joinWith "," t.header :: (t.rows.take 5).map (joinWith ",")) ++ "\n"

/-- Modelled from the spec: the Prompt Composer policy.  With no Table the
prompt is the raw question; with a Table it is the role-instruction
preamble, the serialized schema, the serialized numeric descriptive
statistics, the first 5 rows rendered as a table, and the literal user
question appended last. -/
def composerPrompt : Option Table → String → String
  | none, q => q
  | some t, q =>
    rolePreamble ++ serializeSchema t ++ serializeNumericStats t ++
      serializeHead t ++ q

/- ===== Gemini model initialization (aaa.py lines 17-22, 70-114) ===== -/

/-- The remote environment the script runs against: whether a key passes
genai's verification (the list_models probe at aaa.py line 86), whether
the target model is served, and whether start_chat succeeds (aaa.py line
228). -/
structure GatewayEnv where
  keyValid : String → Bool
  modelAvailable : Bool
  initOk : Bool

def TARGET_GEMINI_MODEL : String := "models/gemini-1.5-flash"

structure GeminiModel where
  name : String
  deriving DecidableEq

/-- The translation keys the script stores as the Gemini status
(aaa.py lines 74, 80, 89, 92, 96). -/
inductive StatusKey
  | warning_ai_unavailable
  | warning_api_key_not_provided
  | success_model_loaded
  | error_model_not_available
  | error_api_connection
  deriving DecidableEq

/-- Embedding of initialize_gemini_model (aaa.py lines 77-98): a falsy
key (absent or empty) yields no model and the key-not-provided warning;
a key genai rejects raises in the list_models probe and yields the
api-connection error; an unavailable model yields its own error; else
the model handle is returned with the success status. -/
def initialize_gemini_model (env : GatewayEnv) (api_key : Option String)
    (model_name : String) : Option GeminiModel × StatusKey :=
  match api_key with
  | none => (none, .warning_api_key_not_provided)
  | some k =>
    if k = "" then (none, .warning_api_key_not_provided)
    else if !env.keyValid k then (none, .error_api_connection)
    else if !env.modelAvailable then (none, .error_model_not_available)
    else (some ⟨model_name⟩, .success_model_loaded)

/-- The table the CSV tab shows on the current rerun: the script keeps
`df` local to the rerun (aaa.py line 132), so what is displayed is a
function of the current upload only, and a failed parse displays no
table (the handler jumps to the error branch at lines 205-209). -/
def displayedTable : Option Upload → Option Table
  | none => none
  | some u =>
    match loadUpload u with
    | .ok t => some t
    | .error _ => none

/-- The error notice the CSV tab shows, when the parse failed. -/
def displayedParseError : Option Upload → Option ParseError
  | none => none
  | some u =>
    match loadUpload u with
    | .ok _ => none
    | .error e => some e

/-- What one top-to-bottom run of the script renders for the two tabs,
as far as the claims are concerned: the CSV tab's table or error, and
whether the chat tab renders a chat input (it does only under
`if st.session_state.gemini_model:` at aaa.py line 222). -/
structure AppView where
  csvTable : Option Table
  csvError : Option ParseError
  chatInputEnabled : Bool
  geminiStatus : StatusKey

def appRender (env : GatewayEnv) (api_key : Option String)
    (upload : Option Upload) : AppView :=
  let ms := initialize_gemini_model env api_key TARGET_GEMINI_MODEL
  { csvTable := displayedTable upload
    csvError := displayedParseError upload
    chatInputEnabled := ms.1.isSome
    geminiStatus := ms.2 }

/-- A status that reports a credential failure: the key-not-provided
warning for a missing/empty key, and the api-connection error genai's
rejection of a bad key surfaces (aaa.py lines 80, 96). -/
def reportsCredentialFailure : StatusKey → Bool
  | .warning_api_key_not_provided => true
  | .error_api_connection => true
  | _ => false

/- ===== Chat session state machine (aaa.py lines 226-276) ===== -/

/-- One transcript entry, as built at aaa.py lines 251 and 261:
genai Content(parts=[Part(text=...)], role=...). -/
structure Content where
  role : String
  text : String
  deriving DecidableEq

def userMsg (q : String) : Content := ⟨"user", q⟩

def modelMsg (r : String) : Content := ⟨"model", r⟩

/-- The chat handle start_chat returns: the history it was seeded with at
construction (aaa.py line 228) and its current history (resynced from the
transcript each rerun at line 235, and advanced by successful sends). -/
structure ChatHandle where
  seededWith : List Content
  history : List Content
  deriving DecidableEq

/-- The chat-related session state: st.session_state.chat_history,
st.session_state.chat, st.session_state.chat_init_success. -/
structure ChatSession where
  chat_history : List Content
  chat : Option ChatHandle
  chat_init_success : Bool
  deriving DecidableEq

def initialSession : ChatSession :=
  { chat_history := [], chat := none, chat_init_success := false }

/-- The notices the chat tab surfaces. -/
inductive Notice
  | errorChatInitFailed
  | warnChatInitFailed
  | errorGeminiNoResponse
  | infoContentPolicy
  | errorGeminiCommunication
  | warnApiOrNetwork
  | chatClearSuccess
  deriving DecidableEq

/-- How the remote send of one submission turns out: a streamed reply, a
StopCandidateException (content-policy rejection, aaa.py line 262), or
any other exception (aaa.py line 266). -/
inductive SendOutcome
  | success (replyText : String)
  | stopCandidate
  | otherFailure
  deriving DecidableEq

/-- The one widget event a rerun handles in the chat tab: a chat
submission, the clear-chat button, or no interaction. -/
inductive UserAction
  | submit (q : String) (outcome : SendOutcome)
  | clearChat
  | idle

/-- The chat-session setup at the top of the chat tab (aaa.py lines
226-235): with no live handle, start_chat(history=chat_history) is
attempted, recording success in chat_init_success; with a live handle its
history is resynced to the transcript. -/
def initStep (env : GatewayEnv) (s : ChatSession) : ChatSession × List Notice :=
  match s.chat with
  | none =>
    if env.initOk then
      ({ s with chat := some ⟨s.chat_history, s.chat_history⟩,
                chat_init_success := true }, [])
    else
      ({ s with chat_init_success := false }, [.errorChatInitFailed])
  | some h =>
    ({ s with chat := some { h with history := s.chat_history } }, [])

/-- The widget-event handling of the chat tab (aaa.py lines 246-276),
returning the new session state, the prompts sent to the remote gateway,
and the notices surfaced.  A submission with a failed setup only warns
(lines 247-248); otherwise the question is appended, send_message is
called with the raw question, and on success the streamed reply is
appended while on either exception only notices are shown (lines
250-269).  The clear button empties the transcript and drops the handle
(lines 272-276). -/
def actStep (s : ChatSession) :
    UserAction → ChatSession × List String × List Notice
  | .idle => (s, [], [])
  | .clearChat =>
    ({ s with chat_history := [], chat := none }, [], [.chatClearSuccess])
  | .submit q outcome =>
    if !s.chat_init_success then
      (s, [], [.warnChatInitFailed])
    else
      let s1 := { s with chat_history := s.chat_history ++ [userMsg q] }
      match outcome with
      | .success r =>
        ({ s1 with
            chat_history := s1.chat_history ++ [modelMsg r],
            chat := s1.chat.map (fun h =>
              { h with history := h.history ++ [userMsg q, modelMsg r] }) },
         [q], [])
      | .stopCandidate =>
        (s1, [q], [.errorGeminiNoResponse, .infoContentPolicy])
      | .otherFailure =>
        (s1, [q], [.errorGeminiCommunication, .warnApiOrNetwork])

/-- One full rerun of the chat tab: setup, then the widget event. -/
def rerun (env : GatewayEnv) (s : ChatSession) (a : UserAction) :
    ChatSession × List String × List Notice :=
  let s1 := (initStep env s).1
  let r := actStep s1 a
  (r.1, r.2.1, (initStep env s).2 ++ r.2.2)

/-- One full rerun of the whole script: the CSV tab recomputes its view
from the current upload, the chat tab runs setup and the widget event.
The chat path never reads the table. -/
def scriptRerun (env : GatewayEnv) (upload : Option Upload)
    (s : ChatSession) (a : UserAction) :
    Option Table × ChatSession × List String × List Notice :=
  (displayedTable upload, rerun env s a)

/-- The session states the script can reach from a fresh session by a
sequence of reruns (each against some environment). -/
def runScript (steps : List (GatewayEnv × UserAction)) : ChatSession :=
  steps.foldl (fun s p => (rerun p.1 s p.2).1) initialSession

def Reachable (s : ChatSession) : Prop :=
  ∃ steps, runScript steps = s

/- ===== Concrete fixtures ===== -/

/-- The CSV input of the spec's upload example. -/
def exampleCSV : String := "a,b\n1,x\n2,y\n,z\n"

/-- The table that upload parses to. -/
def exampleTable : Table :=
  ⟨["a", "b"], [["1", "x"], ["2", "y"], ["", "z"]]⟩

/-- An environment where the key verifies, the model is served and
start_chat succeeds. -/
def envAll : GatewayEnv := ⟨fun _ => true, true, true⟩

/-- An environment where start_chat fails. -/
def envNoInit : GatewayEnv := ⟨fun _ => true, true, false⟩

/-- A session with an empty transcript and a live handle. -/
def activeSession : ChatSession := ⟨[], some ⟨[], []⟩, true⟩

/-- Whether a credential is absent, empty, or rejected by the remote
verification. -/
def credentialMissingOrInvalid (env : GatewayEnv) : Option String → Prop
  | none => True
  | some k => k = "" ∨ env.keyValid k = false

/-- Every message now in the transcript beyond the handle's construction
seed was appended after the handle was built: the seed is an initial
segment of the current transcript. -/
def SeedInv (s : ChatSession) : Prop :=
  ∀ h, s.chat = some h → ∃ tl, s.chat_history = h.seededWith ++ tl

/- ===== Helper lemmas ===== -/

theorem initStep_chat_history (env : GatewayEnv) (s : ChatSession) :
    (initStep env s).1.chat_history = s.chat_history := by
  rcases hs : s.chat with _ | h
  · simp only [initStep, hs]
    split <;> rfl
  · simp only [initStep, hs]

/- ===== Claim theorems ===== -/

/-- C10: the translation lookup is total: it returns the loaded
translation when the key is present and "MISSING_KEY: " followed by the
key when it is absent, and being a total function it never raises. -/
theorem C10_translation_total (t : List (String × String)) (k : String) :
    (∀ v, t.lookup k = some v → lookupTranslation t k = v) ∧
    (t.lookup k = none → lookupTranslation t k = "MISSING_KEY: " ++ k) := by
  constructor
  · intro v hv
    simp [lookupTranslation, hv]
  · intro hv
    simp [lookupTranslation, hv]

theorem C10_translation_total_witness :
    ([("k1", "v1")].lookup "k1" = some "v1" ∧
      lookupTranslation [("k1", "v1")] "k1" = "v1") ∧
    ([("k1", "v1")].lookup "k2" = none ∧
      lookupTranslation [("k1", "v1")] "k2" = "MISSING_KEY: k2") :=
  ⟨⟨by decide, (C10_translation_total [("k1", "v1")] "k1").1 "v1" (by decide)⟩,
   ⟨by decide, (C10_translation_total [("k1", "v1")] "k2").2 (by decide)⟩⟩

/-- C5 as stated is false on the code: the histogram rendered for the
numeric column `a` of the example table is requested with no bin count at
all (seaborn's automatic binning), not with the fixed bin count 20 the
claim states. -/
theorem C5_counterexample :
    (histplotCall exampleTable 0).bins ≠ specHistplotBins := by
  decide

/-- C5 (amended): for every numeric column of a loaded Table, the
histogram call passes the column with nulls dropped and kde enabled, and
passes no bin specification, so seaborn's default automatic bin
estimation is used rather than a fixed bin count of 20. -/
theorem C5_histplot_no_fixed_bins (t : Table) (j : Nat) :
    (histplotCall t j).bins = none ∧ (histplotCall t j).kde = true ∧
    (histplotCall t j).data = dropna (columnCells t j) :=
  ⟨rfl, rfl, rfl⟩

/-- C1 as stated is false on the code: with the example table loaded, the
prompt the chat tab sends for the question "hi" is the raw "hi" itself,
not the composed preamble/schema/stats/head prompt the claim states. -/
theorem C1_counterexample :
    displayedTable (some (.text exampleCSV)) = some exampleTable ∧
    (scriptRerun envAll (some (.text exampleCSV)) activeSession
        (.submit "hi" (.success "ok"))).2.2.1 = ["hi"] ∧
    composerPrompt (some exampleTable) "hi" ≠ "hi" := by
  refine ⟨rfl, rfl, ?_⟩
  decide

/-- C1 (amended): for every chat submission the prompt sent to the remote
gateway is the raw user question unmodified, whether or not a Table is
loaded: at most one prompt is sent and it equals the question, and the
sent prompts do not depend on the upload at all. -/
theorem C1_raw_question_sent (env : GatewayEnv) (upload upload' : Option Upload)
    (s : ChatSession) (q : String) (o : SendOutcome) :
    ((scriptRerun env upload s (.submit q o)).2.2.1 = [] ∨
      (scriptRerun env upload s (.submit q o)).2.2.1 = [q]) ∧
    (scriptRerun env upload s (.submit q o)).2.2.1 =
      (scriptRerun env upload' s (.submit q o)).2.2.1 := by
  refine ⟨?_, rfl⟩
  by_cases hf : (initStep env s).1.chat_init_success = true
  · right
    cases o <;> simp [scriptRerun, rerun, actStep, hf]
  · left
    simp only [Bool.not_eq_true] at hf
    simp [scriptRerun, rerun, actStep, hf]

/-- C8: for every uploaded byte content the loader yields either a Table
(which is then displayed) or a typed ParseError (and then no table is
displayed, so no partial or stale table is shown); the three error kinds
are each realized: undecodable bytes, empty content and a data row with
inconsistent extra fields. -/
theorem C8_loader_total (u : Upload) :
    ((∃ t, loadUpload u = .ok t ∧ displayedTable (some u) = some t) ∨
      (∃ e, loadUpload u = .error e ∧ displayedTable (some u) = none)) ∧
    loadUpload .undecodable = .error .decodingFailure ∧
    loadUpload (.text "") = .error .emptyContent ∧
    loadUpload (.text "a,b\n1,2\n1,2,3") = .error .malformedRows := by
  refine ⟨?_, rfl, rfl, rfl⟩
  cases hl : loadUpload u with
  | ok t => exact .inl ⟨t, rfl, by simp [displayedTable, hl]⟩
  | error e => exact .inr ⟨e, rfl, by simp [displayedTable, hl]⟩

/-- C9: when chat-handle construction fails during the rerun's setup, a
submitted question only surfaces the warning: nothing is sent to the
remote gateway and the transcript is left unchanged. -/
theorem C9_init_failed_submit (env : GatewayEnv) (s : ChatSession)
    (q : String) (o : SendOutcome) (hchat : s.chat = none)
    (hfail : env.initOk = false) :
    (rerun env s (.submit q o)).1.chat_history = s.chat_history ∧
    (rerun env s (.submit q o)).2.1 = [] ∧
    Notice.warnChatInitFailed ∈ (rerun env s (.submit q o)).2.2 := by
  simp [rerun, initStep, hchat, hfail, actStep]

theorem C9_init_failed_submit_witness :
    initialSession.chat = none ∧ envNoInit.initOk = false ∧
    ((rerun envNoInit initialSession (.submit "hi" (.success "ok"))).1.chat_history
        = initialSession.chat_history ∧
      (rerun envNoInit initialSession (.submit "hi" (.success "ok"))).2.1 = [] ∧
      Notice.warnChatInitFailed ∈
        (rerun envNoInit initialSession (.submit "hi" (.success "ok"))).2.2) :=
  ⟨rfl, rfl, C9_init_failed_submit envNoInit initialSession "hi" (.success "ok") rfl rfl⟩

/-- C2: for every transcript state and question whose remote send fails
(a content-policy StopCandidateException or any other exception), the
transcript afterwards is the prior transcript plus exactly the user's
question message; the model-role messages are unchanged and a notice is
surfaced. -/
theorem C2_failed_send (env : GatewayEnv) (s : ChatSession) (q : String)
    (o : SendOutcome)
    (hflag : (initStep env s).1.chat_init_success = true)
    (hfail : o = .stopCandidate ∨ o = .otherFailure) :
    (rerun env s (.submit q o)).1.chat_history = s.chat_history ++ [userMsg q] ∧
    (userMsg q).role = "user" ∧
    (rerun env s (.submit q o)).1.chat_history.filter
        (fun m => m.role == "model")
      = s.chat_history.filter (fun m => m.role == "model") ∧
    (Notice.errorGeminiNoResponse ∈ (rerun env s (.submit q o)).2.2 ∨
      Notice.errorGeminiCommunication ∈ (rerun env s (.submit q o)).2.2) := by
  have hh := initStep_chat_history env s
  rcases hfail with hfail | hfail <;> subst hfail <;>
    refine ⟨by simp [rerun, actStep, hflag, hh], rfl, ?_, by simp [rerun, actStep, hflag]⟩ <;>
    simp [rerun, actStep, hflag, hh, List.filter_append, userMsg]

theorem C2_failed_send_witness :
    (initStep envAll activeSession).1.chat_init_success = true ∧
    ((rerun envAll activeSession (.submit "hi" .stopCandidate)).1.chat_history
        = activeSession.chat_history ++ [userMsg "hi"] ∧
      (userMsg "hi").role = "user" ∧
      (rerun envAll activeSession (.submit "hi" .stopCandidate)).1.chat_history.filter
          (fun m => m.role == "model")
        = activeSession.chat_history.filter (fun m => m.role == "model") ∧
      (Notice.errorGeminiNoResponse ∈
          (rerun envAll activeSession (.submit "hi" .stopCandidate)).2.2 ∨
        Notice.errorGeminiCommunication ∈
          (rerun envAll activeSession (.submit "hi" .stopCandidate)).2.2)) :=
  ⟨rfl, C2_failed_send envAll activeSession "hi" .stopCandidate rfl (.inl rfl)⟩

/-- C7: in every rerun, the transcript either stays as it was, is cleared
by the reset button, or is extended at the end by the submitted question
(and on success the reply): append and reset are the only mutators, the
existing messages keep their exact order, and nothing is deduplicated. -/
theorem C7_append_reset_only (env : GatewayEnv) (s : ChatSession)
    (a : UserAction) :
    (rerun env s a).1.chat_history = s.chat_history ∨
    (rerun env s a).1.chat_history = [] ∨
    (∃ q, (rerun env s a).1.chat_history = s.chat_history ++ [userMsg q]) ∨
    (∃ q r, (rerun env s a).1.chat_history
      = s.chat_history ++ [userMsg q, modelMsg r]) := by
  have hh := initStep_chat_history env s
  cases a with
  | idle => exact .inl (by simp [rerun, actStep, hh])
  | clearChat => exact .inr (.inl (by simp [rerun, actStep]))
  | submit q o =>
    by_cases hf : (initStep env s).1.chat_init_success = true
    · cases o with
      | success r =>
        exact .inr (.inr (.inr ⟨q, r, by simp [rerun, actStep, hf, hh]⟩))
      | stopCandidate =>
        exact .inr (.inr (.inl ⟨q, by simp [rerun, actStep, hf, hh]⟩))
      | otherFailure =>
        exact .inr (.inr (.inl ⟨q, by simp [rerun, actStep, hf, hh]⟩))
    · simp only [Bool.not_eq_true] at hf
      exact .inl (by simp [rerun, actStep, hf, hh])

/-- C6: with a missing or invalid credential, model initialization yields
no model and a credential-failure status, the chat tab renders no chat
input, and the CSV tab's rendering is exactly what it is under any other
credential: the rest of the system keeps functioning. -/
theorem C6_credential_disables_chat_only (env : GatewayEnv)
    (key : Option String) (upload : Option Upload)
    (h : credentialMissingOrInvalid env key) :
    (initialize_gemini_model env key TARGET_GEMINI_MODEL).1 = none ∧
    reportsCredentialFailure
      (initialize_gemini_model env key TARGET_GEMINI_MODEL).2 = true ∧
    (appRender env key upload).chatInputEnabled = false ∧
    (appRender env key upload).csvTable = displayedTable upload ∧
    (appRender env key upload).csvError = displayedParseError upload ∧
    (∀ key', (appRender env key' upload).csvTable
        = (appRender env key upload).csvTable ∧
      (appRender env key' upload).csvError
        = (appRender env key upload).csvError) := by
  cases key with
  | none => exact ⟨rfl, rfl, rfl, rfl, rfl, fun key' => ⟨rfl, rfl⟩⟩
  | some k =>
    have hmain : (initialize_gemini_model env (some k) TARGET_GEMINI_MODEL).1 = none ∧
        reportsCredentialFailure
          (initialize_gemini_model env (some k) TARGET_GEMINI_MODEL).2 = true := by
      rcases h with h | h
      · subst h
        exact ⟨rfl, rfl⟩
      · by_cases hk : k = ""
        · subst hk
          exact ⟨rfl, rfl⟩
        · simp [initialize_gemini_model, hk, h, reportsCredentialFailure]
    refine ⟨hmain.1, hmain.2, ?_, rfl, rfl, fun key' => ⟨rfl, rfl⟩⟩
    simp [appRender, hmain.1]

theorem C6_credential_disables_chat_only_witness :
    credentialMissingOrInvalid envAll none ∧
    ((initialize_gemini_model envAll none TARGET_GEMINI_MODEL).1 = none ∧
      reportsCredentialFailure
        (initialize_gemini_model envAll none TARGET_GEMINI_MODEL).2 = true ∧
      (appRender envAll none (some (.text exampleCSV))).chatInputEnabled = false ∧
      (appRender envAll none (some (.text exampleCSV))).csvTable
        = displayedTable (some (.text exampleCSV)) ∧
      (appRender envAll none (some (.text exampleCSV))).csvError
        = displayedParseError (some (.text exampleCSV)) ∧
      (∀ key', (appRender envAll key' (some (.text exampleCSV))).csvTable
          = (appRender envAll none (some (.text exampleCSV))).csvTable ∧
        (appRender envAll key' (some (.text exampleCSV))).csvError
          = (appRender envAll none (some (.text exampleCSV))).csvError)) :=
  ⟨trivial,
   C6_credential_disables_chat_only envAll none (some (.text exampleCSV)) trivial⟩

/- ===== Handle/transcript invariant (for C3) ===== -/

theorem initStep_seedInv (env : GatewayEnv) (s : ChatSession)
    (hs : SeedInv s) : SeedInv (initStep env s).1 := by
  intro h hc
  rw [initStep_chat_history]
  rcases hs0 : s.chat with _ | h0
  · by_cases hi : env.initOk = true
    · simp only [initStep, hs0, hi, if_true, Option.some.injEq] at hc
      subst hc
      exact ⟨[], by simp⟩
    · exfalso
      simp [initStep, hs0, hi] at hc
  · simp only [initStep, hs0, Option.some.injEq] at hc
    subst hc
    exact hs h0 hs0

theorem actStep_seedInv (s : ChatSession) (a : UserAction)
    (hs : SeedInv s) : SeedInv (actStep s a).1 := by
  cases a with
  | idle => exact hs
  | clearChat =>
    intro h hc
    simp [actStep] at hc
  | submit q o =>
    by_cases hf : s.chat_init_success = true
    · cases o with
      | success r =>
        intro h hc
        simp only [actStep, hf, Bool.not_true, Bool.false_eq_true, if_false,
          Option.map_eq_some'] at hc
        obtain ⟨h0, hc0, hfh⟩ := hc
        obtain ⟨tl, htl⟩ := hs h0 hc0
        subst hfh
        refine ⟨tl ++ [userMsg q, modelMsg r], ?_⟩
        simp only [actStep, hf, Bool.not_true, Bool.false_eq_true, if_false]
        simp [htl]
      | stopCandidate =>
        intro h hc
        simp only [actStep, hf, Bool.not_true, Bool.false_eq_true,
          if_false] at hc
        obtain ⟨tl, htl⟩ := hs h hc
        refine ⟨tl ++ [userMsg q], ?_⟩
        simp only [actStep, hf, Bool.not_true, Bool.false_eq_true, if_false]
        simp [htl]
      | otherFailure =>
        intro h hc
        simp only [actStep, hf, Bool.not_true, Bool.false_eq_true,
          if_false] at hc
        obtain ⟨tl, htl⟩ := hs h hc
        refine ⟨tl ++ [userMsg q], ?_⟩
        simp only [actStep, hf, Bool.not_true, Bool.false_eq_true, if_false]
        simp [htl]
    · simp only [Bool.not_eq_true] at hf
      intro h hc
      simp only [actStep, hf, Bool.not_false, if_true] at hc
      obtain ⟨tl, htl⟩ := hs h hc
      refine ⟨tl, ?_⟩
      simp only [actStep, hf, Bool.not_false, if_true]
      exact htl

theorem rerun_seedInv (env : GatewayEnv) (s : ChatSession) (a : UserAction)
    (hs : SeedInv s) : SeedInv (rerun env s a).1 :=
  actStep_seedInv _ a (initStep_seedInv env s hs)

theorem foldl_seedInv (steps : List (GatewayEnv × UserAction))
    (s : ChatSession) (hs : SeedInv s) :
    SeedInv (steps.foldl (fun s p => (rerun p.1 s p.2).1) s) := by
  induction steps generalizing s with
  | nil => exact hs
  | cons p ps ih => exact ih _ (rerun_seedInv p.1 s p.2 hs)

theorem reachable_seedInv (s : ChatSession) (hreach : Reachable s) :
    SeedInv s := by
  obtain ⟨steps, hsteps⟩ := hreach
  subst hsteps
  exact foldl_seedInv steps initialSession (fun h hh => by cases hh)

/-- C3: in every reachable session state the held handle's construction
seed is exactly the transcript as it stood at construction (all further
messages were appended after it, and each rerun resyncs the handle's
history to the current transcript); the clear-chat reset empties the
transcript and drops the handle; and after a reset the next rerun must
first rebuild a handle, which is seeded with the empty history, before
any send. -/
theorem C3_handle_lifecycle (env : GatewayEnv) (s : ChatSession)
    (q : String) (o : SendOutcome) (hreach : Reachable s)
    (hinit : env.initOk = true) :
    (∀ h, s.chat = some h → ∃ tl, s.chat_history = h.seededWith ++ tl) ∧
    (s.chat = none →
      (initStep env s).1.chat = some ⟨s.chat_history, s.chat_history⟩) ∧
    (∀ h, (initStep env s).1.chat = some h → h.history = s.chat_history) ∧
    (rerun env s .clearChat).1.chat_history = [] ∧
    (rerun env s .clearChat).1.chat = none ∧
    (initStep env (rerun env s .clearChat).1).1.chat = some ⟨[], []⟩ ∧
    (∀ h, (rerun env (rerun env s .clearChat).1 (.submit q o)).1.chat = some h →
      h.seededWith = []) := by
  have hclear : (rerun env s .clearChat).1
      = { chat_history := [], chat := none,
          chat_init_success := (initStep env s).1.chat_init_success } := by
    simp [rerun, actStep]
  refine ⟨reachable_seedInv s hreach, ?_, ?_, ?_, ?_, ?_, ?_⟩
  · intro hc
    simp [initStep, hc, hinit]
  · intro h hh
    rcases hc : s.chat with _ | h0
    · simp only [initStep, hc, hinit, if_true] at hh
      cases hh with
      | refl => rfl
    · simp only [initStep, hc] at hh
      cases hh with
      | refl => rfl
  · rw [hclear]
  · rw [hclear]
  · rw [hclear]
    simp [initStep, hinit]
  · intro h hh
    rw [hclear] at hh
    cases o <;>
      simp only [rerun, initStep, hinit, if_true, actStep, Bool.not_true,
        Bool.false_eq_true, if_false, Option.map_eq_some'] at hh
    · obtain ⟨h0, hc0, hfh⟩ := hh
      cases hc0 with
      | refl => subst hfh; rfl
    · cases hh with
      | refl => rfl
    · cases hh with
      | refl => rfl

/- ===== Counting lemmas (for C4) ===== -/

theorem len_filter_map_sum {α β : Type} (g : α → β) (p : β → Bool)
    (l : List α) :
    ((l.map g).filter p).length
      = (l.map (fun a => if p (g a) then 1 else 0)).sum := by
  induction l with
  | nil => rfl
  | cons a l ih =>
    by_cases h : p (g a)
    · simp [List.filter_cons, h, ih]
      omega
    · simp [List.filter_cons, h, ih]

theorem len_filter_range_sum {α : Type} (p : α → Bool) (d : α)
    (r : List α) :
    (r.filter p).length
      = ((List.range r.length).map
          (fun j => if p (r.getD j d) then 1 else 0)).sum := by
  induction r with
  | nil => rfl
  | cons a r ih =>
    rw [List.length_cons, List.range_succ_eq_map]
    by_cases h : p a
    · simp [List.filter_cons, h, ih, List.map_map, Function.comp_def,
        List.getElem?_cons_succ, List.getElem?_cons_zero]
      omega
    · simp [List.filter_cons, h, ih, List.map_map, Function.comp_def,
        List.getElem?_cons_succ, List.getElem?_cons_zero]

theorem sum_map_add_nat {α : Type} (l : List α) (f g : α → Nat) :
    (l.map (fun x => f x + g x)).sum = (l.map f).sum + (l.map g).sum := by
  induction l with
  | nil => rfl
  | cons a l ih =>
    simp only [List.map_cons, List.sum_cons, ih]
    omega

theorem sum_sum_comm {α β : Type} (l₁ : List α) (l₂ : List β)
    (f : α → β → Nat) :
    (l₁.map (fun a => (l₂.map (fun b => f a b)).sum)).sum
      = (l₂.map (fun b => (l₁.map (fun a => f a b)).sum)).sum := by
  induction l₁ with
  | nil => simp
  | cons a l ih =>
    simp only [List.map_cons, List.sum_cons, ih]
    rw [sum_map_add_nat]

theorem read_csv_valid_ok {s : String} {t : Table}
    (h : read_csv s = .ok t)
    (hvalid : ∀ l ∈ dataLines s,
      (splitFields l).length = (headerFields s).length) :
    ∃ hd rest, csvLines s = hd :: rest ∧ t.header = splitFields hd ∧
      t.rows = rest.map splitFields ∧
      ∀ r ∈ t.rows, r.length = t.header.length := by
  unfold read_csv at h
  rcases hcl : csvLines s with _ | ⟨hd, rest⟩
  · rw [hcl] at h
    cases h
  · rw [hcl] at h
    dsimp only at h
    have hdl : dataLines s = rest := by rw [dataLines, hcl]; rfl
    have hhf : headerFields s = splitFields hd := by rw [headerFields, hcl]; rfl
    have hlen : ∀ r ∈ rest.map splitFields, r.length = (splitFields hd).length := by
      intro r hr
      obtain ⟨l, hl, hrf⟩ := List.mem_map.mp hr
      rw [← hrf, ← hhf]
      exact hvalid l (by rw [hdl]; exact hl)
    rcases hrest : rest with _ | ⟨r0, rest'⟩
    · subst hrest
      simp only [List.map_nil, List.all_nil, if_true] at h
      injection h with h
      subst h
      exact ⟨hd, [], rfl, rfl, rfl, by intro r hr; cases hr⟩
    · subst hrest
      have h0 := hlen (splitFields r0)
        (List.mem_map_of_mem _ (List.mem_cons_self _ _))
      have hb1 : ¬(((r0 :: rest').map splitFields).all
          (fun r => r.length = (splitFields hd).length + 1) = true) := by
        intro hb
        have h1 := of_decide_eq_true (List.all_eq_true.mp hb (splitFields r0)
          (List.mem_map_of_mem _ (List.mem_cons_self _ _)))
        omega
      rw [if_neg hb1] at h
      have hb2 : ((r0 :: rest').map splitFields).all
          (fun r => r.length ≤ (splitFields hd).length) = true :=
        List.all_eq_true.mpr
          (fun r hr => decide_eq_true (le_of_eq (hlen r hr)))
      rw [if_pos hb2] at h
      injection h with h
      subst h
      refine ⟨hd, r0 :: rest', rfl, rfl, rfl, ?_⟩
      exact hlen

theorem C3_handle_lifecycle_witness :
    Reachable initialSession ∧ envAll.initOk = true ∧
    ((∀ h, initialSession.chat = some h →
        ∃ tl, initialSession.chat_history = h.seededWith ++ tl) ∧
      (initialSession.chat = none →
        (initStep envAll initialSession).1.chat
          = some ⟨initialSession.chat_history, initialSession.chat_history⟩) ∧
      (∀ h, (initStep envAll initialSession).1.chat = some h →
        h.history = initialSession.chat_history) ∧
      (rerun envAll initialSession .clearChat).1.chat_history = [] ∧
      (rerun envAll initialSession .clearChat).1.chat = none ∧
      (initStep envAll (rerun envAll initialSession .clearChat).1).1.chat
        = some ⟨[], []⟩ ∧
      (∀ h, (rerun envAll (rerun envAll initialSession .clearChat).1
          (.submit "hi" (.success "ok"))).1.chat = some h →
        h.seededWith = [])) :=
  ⟨⟨[], rfl⟩, rfl,
   C3_handle_lifecycle envAll initialSession "hi" (.success "ok") ⟨[], rfl⟩ rfl⟩

/-- C4: for every valid CSV text the loader accepts — valid meaning each
data line carries exactly the header's field count — the table's row
count is the number of data lines, its column count the number of header
fields, and missing_count the independently counted empty cells; in
particular the example upload yields 3 rows, 2 columns, one missing
cell, numeric column `a` with cells 1, 2 and a null, and categorical
column `b` whose distinct values x, y, z each occur once. -/
theorem C4_loader_counts (s : String) (t : Table)
    (h : read_csv s = .ok t)
    (hvalid : ∀ l ∈ dataLines s,
      (splitFields l).length = (headerFields s).length) :
    rowCount t = (dataLines s).length ∧
    colCount t = (headerFields s).length ∧
    missing_count t = independentMissingCount s ∧
    read_csv exampleCSV = .ok exampleTable ∧
    rowCount exampleTable = 3 ∧
    colCount exampleTable = 2 ∧
    missing_count exampleTable = 1 ∧
    isNumericColumn exampleTable 0 = true ∧
    columnCells exampleTable 0 = ["1", "2", ""] ∧
    isCategoricalColumn exampleTable 1 = true ∧
    value_counts (columnCells exampleTable 1)
      = [("x", 1), ("y", 1), ("z", 1)] := by
  obtain ⟨hd, rest, hcl, hheader, hrows, hlen⟩ := read_csv_valid_ok h hvalid
  refine ⟨?_, ?_, ?_, rfl, rfl, rfl, rfl, rfl, rfl, rfl, by decide⟩
  · rw [rowCount, hrows, List.length_map, dataLines, hcl]
    rfl
  · rw [colCount, hheader, headerFields, hcl]
    rfl
  · calc missing_count t
        = ((List.range t.header.length).map (fun j =>
            (t.rows.map (fun r =>
              if isNullCell (r.getD j "") then 1 else 0)).sum)).sum := by
          simp only [missing_count, columnCells, colCount, len_filter_map_sum]
      _ = (t.rows.map (fun r =>
            ((List.range t.header.length).map (fun j =>
              if isNullCell (r.getD j "") then 1 else 0)).sum)).sum :=
          sum_sum_comm _ _ _
      _ = (t.rows.map (fun r => (r.filter isNullCell).length)).sum := by
          congr 1
          apply List.map_congr_left
          intro r hr
          rw [← hlen r hr]
          exact (len_filter_range_sum isNullCell "" r).symm
      _ = independentMissingCount s := by
          rw [hrows, List.map_map, independentMissingCount, dataLines, hcl]
          rfl

theorem C4_loader_counts_witness :
    read_csv exampleCSV = .ok exampleTable ∧
    (∀ l ∈ dataLines exampleCSV,
      (splitFields l).length = (headerFields exampleCSV).length) ∧
    rowCount exampleTable = (dataLines exampleCSV).length ∧
    colCount exampleTable = (headerFields exampleCSV).length ∧
    missing_count exampleTable = independentMissingCount exampleCSV :=
  ⟨rfl, by decide,
   (C4_loader_counts exampleCSV exampleTable rfl (by decide)).1,
   (C4_loader_counts exampleCSV exampleTable rfl (by decide)).2.1,
   (C4_loader_counts exampleCSV exampleTable rfl (by decide)).2.2.1⟩

end Aaa
